import Mathlib

/-!
Verification of the AI orchestration layer of a Jira-like task manager:
summary service (incremental updates with a high-water mark), estimation
service (mock similarity estimator, result builder), parser service
(input validation), repositories, and the websocket progress-streaming
protocol.  Each Python service function is embedded as an executable
Lean definition; DateTime values are modelled as natural-number ticks
(due dates by their rendered YYYY-MM-DD string), and the AI provider is
an explicit function parameter so that provider calls can be counted.
-/

namespace Jira

/-! ## Data model (tasks/models.py, migration 0002) -/

/-- A `TaskActivity` row: only the fields the summary service reads. -/
structure TaskActivity where
  id : Nat
  timestamp : Nat
  deriving DecidableEq

/-- A `Task` row.  `estimate` is a nullable positive-integer field,
`assignee` is modelled by its username, `due_date` by its rendered
`%Y-%m-%d` string, and the reverse FK `activities` is inlined. -/
structure TaskRec where
  id : Nat
  title : String
  description : String
  status : String
  priority : String
  estimate : Option Nat
  assignee : Option String
  due_date : Option String
  updated_at : Nat
  activities : List TaskActivity
  deriving DecidableEq

/-- A `TaskSummary` row.  `updated_at` is an `auto_now` column managed by
the ORM on save and never read by the services, so it is not modelled;
`created_at` is `auto_now_add` (DB-assigned, never read) and is carried
as an ordinary field so that frame properties can mention it. -/
structure TaskSummary where
  taskId : Nat
  summary_text : String
  last_activity_processed : Option TaskActivity
  token_usage : Int
  created_at : Nat
  deriving DecidableEq

/-! ## TaskSummaryRepository (services/repositories.py) -/

/-- `TaskSummaryRepository.update`: overwrites the text, advances the
high-water mark only when a (truthy) activity is passed, and adds the
new tokens to the cumulative counter. -/
def updateSummary (summary : TaskSummary) (summary_text : String)
    (last_activity_processed : Option TaskActivity) (additional_tokens : Int) :
    TaskSummary :=
  { summary with
    summary_text := summary_text
    last_activity_processed :=
      match last_activity_processed with
      | some a => some a
      | none => summary.last_activity_processed
    token_usage := summary.token_usage + additional_tokens }

/-- `TaskSummaryRepository.create`.  `created_at` is DB-assigned
(`auto_now_add`) and never read back by the services; it is fixed to 0. -/
def createSummary (task : TaskRec) (summary_text : String)
    (last_activity_processed : Option TaskActivity) (token_usage : Int) :
    TaskSummary :=
  { taskId := task.id
    summary_text := summary_text
    last_activity_processed := last_activity_processed
    token_usage := token_usage
    created_at := 0 }

/-- The database state the summary repositories operate on. -/
structure Database where
  tasks : List TaskRec
  summaries : List TaskSummary

/-- `Task.objects.get(id=task_id)`, with `DoesNotExist` rendered as `none`. -/
def findTask (db : Database) (task_id : Nat) : Option TaskRec :=
  db.tasks.find? (fun t => t.id == task_id)

/-- `TaskSummaryRepository.get_by_task_id`: a missing task is caught
(`Task.DoesNotExist`) and yields `None`; otherwise the task's one-to-one
`ai_summary` accessor (`getattr(task, "ai_summary", None)`). -/
def summaryGetByTaskId (db : Database) (task_id : Nat) : Option TaskSummary :=
  match findTask db task_id with
  | none => none
  | some t => db.summaries.find? (fun s => s.taskId == t.id)

/-- `TaskSummaryRepository.delete_by_task_id`: `False` when the task is
missing or has no summary, otherwise deletes the summary row and
returns `True`. -/
def summaryDeleteByTaskId (db : Database) (task_id : Nat) : Bool × Database :=
  match findTask db task_id with
  | none => (false, db)
  | some t =>
    match db.summaries.find? (fun s => s.taskId == t.id) with
    | some _ =>
        (true, { db with summaries := db.summaries.eraseP (fun s => s.taskId == t.id) })
    | none => (false, db)

/-! ## TaskSummaryService (services/summary/service.py) -/

/-- Chronological order used by `order_by("timestamp")`. -/
def actLE (a b : TaskActivity) : Prop := a.timestamp ≤ b.timestamp

instance : DecidableRel actLE :=
  fun a b => inferInstanceAs (Decidable (a.timestamp ≤ b.timestamp))

/-- `order_by("timestamp")` on a set of activity rows. -/
def orderByTimestamp (l : List TaskActivity) : List TaskActivity :=
  l.insertionSort actLE

/-- `_get_all_activities`: all activities, chronologically. -/
def getAllActivities (task : TaskRec) : List TaskActivity :=
  orderByTimestamp task.activities

/-- `_get_new_activities`: activities strictly newer than the high-water
mark's timestamp, or all of them when no mark is set. -/
def getNewActivities (task : TaskRec) (existing : TaskSummary) : List TaskActivity :=
  match existing.last_activity_processed with
  | some mark =>
      orderByTimestamp (task.activities.filter (fun a => mark.timestamp < a.timestamp))
  | none => getAllActivities task

/-- `Task.get_status_display()` for the model's status choices. -/
def getStatusDisplay (s : String) : String :=
  if s = "todo" then "To Do"
  else if s = "in_progress" then "In Progress"
  else if s = "in_review" then "In Review"
  else if s = "done" then "Done"
  else if s = "blocked" then "Blocked"
  else s

/-- `Task.get_priority_display()` for the model's priority choices. -/
def getPriorityDisplay (p : String) : String :=
  if p = "low" then "Low"
  else if p = "medium" then "Medium"
  else if p = "high" then "High"
  else if p = "critical" then "Critical"
  else p

/-- `_create_basic_summary`: deterministic text from task fields alone,
zero token cost.  (`if task.estimate:` is Python truthiness, so a stored
0 is skipped; dates are already modelled by their rendered string.) -/
def createBasicSummary (task : TaskRec) : String × Int :=
  let parts := ["Task \x27" ++ task.title ++ "\x27 was created with "
                  ++ getStatusDisplay task.status ++ " status",
                "and " ++ getPriorityDisplay task.priority ++ " priority."]
  let parts := match task.assignee with
    | some u => parts ++ ["Assigned to " ++ u ++ "."]
    | none => parts
  let parts := match task.estimate with
    | some e => if e ≠ 0 then parts ++ ["Estimated effort: " ++ toString e ++ " story points."] else parts
    | none => parts
  let parts := match task.due_date with
    | some d => parts ++ ["Due date: " ++ d ++ "."]
    | none => parts
  (String.intercalate " " parts, 0)

/-- The AI summary provider (`generate_task_summary`): from the task, the
activity batch and the optional previous summary text it produces the new
summary text and the token cost.  Passed explicitly so calls can be
counted. -/
def SummaryProviderFn : Type :=
  TaskRec → List TaskActivity → Option String → String × Int

/-- `_update_existing_summary`: a no-op returning the stored summary when
there are no new activities, otherwise one provider call and a
repository update advancing the mark to the last new activity.  The
second component counts provider calls. -/
def updateExistingSummary (gen : SummaryProviderFn) (task : TaskRec)
    (existing : TaskSummary) : TaskSummary × Nat :=
  let newActivities := getNewActivities task existing
  if h : newActivities = [] then
    (existing, 0)
  else
    let res := gen task newActivities (some existing.summary_text)
    (updateSummary existing res.1 (some (newActivities.getLast h)) res.2, 1)

/-- `_create_new_summary`: basic summary when the task has no activities,
otherwise one provider call; the mark is set to the last activity. -/
def createNewSummary (gen : SummaryProviderFn) (task : TaskRec) :
    TaskSummary × Nat :=
  let activities := getAllActivities task
  if h : activities = [] then
    let res := createBasicSummary task
    (createSummary task res.1 none res.2, 0)
  else
    let res := gen task activities none
    (createSummary task res.1 (some (activities.getLast h)) res.2, 1)

/-- `create_or_update_summary`, with the task's current summary slot made
explicit.  Returns the resulting summary and the number of provider
calls performed. -/
def createOrUpdateSummary (gen : SummaryProviderFn) (task : TaskRec)
    (slot : Option TaskSummary) : TaskSummary × Nat :=
  match slot with
  | some existing => updateExistingSummary gen task existing
  | none => createNewSummary gen task

/-! ## Theorems: C7, C9, C10 -/

/-- One `update` call of the summary repository, as recorded arguments. -/
structure SummaryUpdateCall where
  summary_text : String
  last_activity_processed : Option TaskActivity
  additional_tokens : Int

/-- A sequence of `TaskSummaryRepository.update` calls applied in order. -/
def applySummaryUpdates (s : TaskSummary) (ops : List SummaryUpdateCall) :
    TaskSummary :=
  ops.foldl
    (fun acc op =>
      updateSummary acc op.summary_text op.last_activity_processed op.additional_tokens)
    s

theorem applySummaryUpdates_token_mono (ops : List SummaryUpdateCall) :
    ∀ s : TaskSummary, (∀ op ∈ ops, 0 ≤ op.additional_tokens) →
      s.token_usage ≤ (applySummaryUpdates s ops).token_usage := by
  induction ops with
  | nil => intro s _; exact le_refl _
  | cons op rest ih =>
      intro s hpos
      have h0 : 0 ≤ op.additional_tokens := hpos op (List.mem_cons_self _ _)
      have step :
          s.token_usage ≤
            (updateSummary s op.summary_text op.last_activity_processed
              op.additional_tokens).token_usage := by
        simp only [updateSummary]
        omega
      calc s.token_usage
          ≤ (updateSummary s op.summary_text op.last_activity_processed
              op.additional_tokens).token_usage := step
        _ ≤ _ := ih _ (fun o ho => hpos o (List.mem_cons_of_mem _ ho))

/-- C7: every summary update adds the reported cost to the existing
counter (never resets it), so along any sequence of updates with
non-negative increments the cumulative counter is non-decreasing. -/
theorem summary_cost_counter_monotone (s : TaskSummary) (text : String)
    (mark : Option TaskActivity) (add : Int) (ops : List SummaryUpdateCall)
    (hpos : ∀ op ∈ ops, 0 ≤ op.additional_tokens) :
    (updateSummary s text mark add).token_usage = s.token_usage + add ∧
    (0 ≤ add → s.token_usage ≤ (updateSummary s text mark add).token_usage) ∧
    s.token_usage ≤ (applySummaryUpdates s ops).token_usage := by
  refine ⟨rfl, ?_, applySummaryUpdates_token_mono ops s hpos⟩
  intro h
  simp only [updateSummary]
  omega

/-- Witness for C7 at a concrete summary and update sequence. -/
theorem summary_cost_counter_monotone_witness :
    (∀ op ∈ [SummaryUpdateCall.mk "v2" none 7, SummaryUpdateCall.mk "v3" none 0],
        0 ≤ op.additional_tokens) ∧
    (updateSummary ⟨1, "v1", none, 10, 0⟩ "v2" none 7).token_usage = 10 + 7 ∧
    (0 ≤ (7 : Int) →
      (⟨1, "v1", none, 10, 0⟩ : TaskSummary).token_usage ≤
        (updateSummary ⟨1, "v1", none, 10, 0⟩ "v2" none 7).token_usage) ∧
    (⟨1, "v1", none, 10, 0⟩ : TaskSummary).token_usage ≤
      (applySummaryUpdates ⟨1, "v1", none, 10, 0⟩
        [SummaryUpdateCall.mk "v2" none 7, SummaryUpdateCall.mk "v3" none 0]).token_usage :=
  ⟨by decide,
   summary_cost_counter_monotone ⟨1, "v1", none, 10, 0⟩ "v2" none 7
     [SummaryUpdateCall.mk "v2" none 7, SummaryUpdateCall.mk "v3" none 0] (by decide)⟩

/-- C9: an `update` call without an activity leaves the high-water mark
(and every field other than `summary_text` and `token_usage`) unchanged. -/
theorem summary_update_frame (s : TaskSummary) (text : String) (add : Int) :
    (updateSummary s text none add).last_activity_processed =
        s.last_activity_processed ∧
    (updateSummary s text none add).taskId = s.taskId ∧
    (updateSummary s text none add).created_at = s.created_at ∧
    (updateSummary s text none add).summary_text = text ∧
    (updateSummary s text none add).token_usage = s.token_usage + add :=
  ⟨rfl, rfl, rfl, rfl, rfl⟩

/-- C10: repository lookups and deletes for missing tasks return
`None`/`False` rather than raising; deletion returns `True` exactly when
an existing summary was removed. -/
theorem summary_lookup_delete_total (db : Database) (tid : Nat) :
    (findTask db tid = none →
      summaryGetByTaskId db tid = none ∧ summaryDeleteByTaskId db tid = (false, db)) ∧
    (∀ t, findTask db tid = some t →
      db.summaries.find? (fun s => s.taskId == t.id) = none →
      summaryDeleteByTaskId db tid = (false, db)) ∧
    (∀ t s, findTask db tid = some t →
      db.summaries.find? (fun x => x.taskId == t.id) = some s →
      (summaryDeleteByTaskId db tid).1 = true ∧
      (summaryDeleteByTaskId db tid).2.summaries =
        db.summaries.eraseP (fun x => x.taskId == t.id)) ∧
    ((summaryDeleteByTaskId db tid).1 = true ↔
      ∃ t, findTask db tid = some t ∧ summaryGetByTaskId db tid ≠ none) := by
  refine ⟨?_, ?_, ?_, ?_⟩
  · intro h
    simp [summaryGetByTaskId, summaryDeleteByTaskId, h]
  · intro t ht hs
    simp [summaryDeleteByTaskId, ht, hs]
  · intro t s ht hs
    simp [summaryDeleteByTaskId, ht, hs]
  · constructor
    · intro h
      cases hft : findTask db tid with
      | none => simp [summaryDeleteByTaskId, hft] at h
      | some t =>
          refine ⟨t, rfl, ?_⟩
          cases hfs : db.summaries.find? (fun s => s.taskId == t.id) with
          | none => simp [summaryDeleteByTaskId, hft, hfs] at h
          | some s => simp [summaryGetByTaskId, hft, hfs]
    · rintro ⟨t, ht, hs⟩
      cases hfs : db.summaries.find? (fun s => s.taskId == t.id) with
      | none => simp [summaryGetByTaskId, ht, hfs] at hs
      | some s => simp [summaryDeleteByTaskId, ht, hfs]

/-- Witness for C10 on a concrete two-task database (task 1 has a
summary, task 2 has none, task 99 does not exist). -/
theorem summary_lookup_delete_total_witness :
    (findTask ⟨[⟨1, "a", "", "todo", "medium", none, none, none, 0, []⟩,
                ⟨2, "b", "", "todo", "medium", none, none, none, 0, []⟩],
               [⟨1, "s", none, 0, 0⟩]⟩ 99 = none →
      summaryGetByTaskId ⟨[⟨1, "a", "", "todo", "medium", none, none, none, 0, []⟩,
                ⟨2, "b", "", "todo", "medium", none, none, none, 0, []⟩],
               [⟨1, "s", none, 0, 0⟩]⟩ 99 = none ∧
      summaryDeleteByTaskId ⟨[⟨1, "a", "", "todo", "medium", none, none, none, 0, []⟩,
                ⟨2, "b", "", "todo", "medium", none, none, none, 0, []⟩],
               [⟨1, "s", none, 0, 0⟩]⟩ 99 =
        (false, ⟨[⟨1, "a", "", "todo", "medium", none, none, none, 0, []⟩,
                ⟨2, "b", "", "todo", "medium", none, none, none, 0, []⟩],
               [⟨1, "s", none, 0, 0⟩]⟩)) ∧
    findTask ⟨[⟨1, "a", "", "todo", "medium", none, none, none, 0, []⟩,
                ⟨2, "b", "", "todo", "medium", none, none, none, 0, []⟩],
               [⟨1, "s", none, 0, 0⟩]⟩ 99 = none ∧
    (summaryDeleteByTaskId ⟨[⟨1, "a", "", "todo", "medium", none, none, none, 0, []⟩,
                ⟨2, "b", "", "todo", "medium", none, none, none, 0, []⟩],
               [⟨1, "s", none, 0, 0⟩]⟩ 1).1 = true :=
  ⟨(summary_lookup_delete_total _ 99).1, by decide, by decide⟩

/-! ## TaskRepository.get_similar_tasks (services/repositories.py) -/

/-- The dictionary `get_similar_tasks` builds per task (`description or ""`
coincides with the raw description, which is a non-null text field). -/
structure SimilarTaskData where
  id : Nat
  title : String
  description : String
  priority : String
  estimate : Nat
  status : String
  deriving DecidableEq

/-- The queryset filter: non-null positive estimate, completed status,
and `.exclude(id=task.id)`. -/
def isSimilarCandidate (task t : TaskRec) : Bool :=
  (match t.estimate with
   | some e => decide (0 < e)
   | none => false)
  && (decide (t.status = "done") || decide (t.status = "closed"))
  && decide (t.id ≠ task.id)

/-- `order_by("-updated_at")`: most recently updated first. -/
def updatedDesc (a b : TaskRec) : Prop := b.updated_at ≤ a.updated_at

instance : DecidableRel updatedDesc :=
  fun a b => inferInstanceAs (Decidable (b.updated_at ≤ a.updated_at))

instance : IsTotal TaskRec updatedDesc :=
  ⟨fun a b => le_total b.updated_at a.updated_at⟩

instance : IsTrans TaskRec updatedDesc :=
  ⟨fun _ _ _ h1 h2 => le_trans h2 h1⟩

/-- The queryset of `get_similar_tasks` before projection: filter,
order by `-updated_at`, slice to `limit`. -/
def getSimilarTasksSelected (db : List TaskRec) (task : TaskRec) (limit : Nat) :
    List TaskRec :=
  (((db.filter (isSimilarCandidate task)).insertionSort updatedDesc).take limit)

/-- Projection of a selected task to the returned dictionary.  The filter
guarantees `estimate` is non-null; `getD 0` makes the projection total. -/
def toSimilarTaskData (t : TaskRec) : SimilarTaskData :=
  ⟨t.id, t.title, t.description, t.priority, t.estimate.getD 0, t.status⟩

/-- `TaskRepository.get_similar_tasks`. -/
def getSimilarTasks (db : List TaskRec) (task : TaskRec) (limit : Nat) :
    List SimilarTaskData :=
  (getSimilarTasksSelected db task limit).map toSimilarTaskData

theorem mem_getSimilarTasksSelected {db : List TaskRec} {task : TaskRec}
    {limit : Nat} {t : TaskRec} (h : t ∈ getSimilarTasksSelected db task limit) :
    isSimilarCandidate task t = true := by
  have h1 : t ∈ (db.filter (isSimilarCandidate task)).insertionSort updatedDesc :=
    List.take_subset _ _ h
  have h2 : t ∈ db.filter (isSimilarCandidate task) :=
    (List.mem_insertionSort updatedDesc).1 h1
  exact List.of_mem_filter h2

/-- C5: every returned similar task has a non-null positive estimate and
a completed status, is distinct from the query task, the result is
ordered most-recently-updated first, and its size is at most `limit`. -/
theorem similar_tasks_selection (db : List TaskRec) (task : TaskRec) (limit : Nat) :
    (∀ t ∈ getSimilarTasksSelected db task limit,
      (∃ e, t.estimate = some e ∧ 0 < e) ∧
      (t.status = "done" ∨ t.status = "closed") ∧ t.id ≠ task.id) ∧
    (∀ d ∈ getSimilarTasks db task limit,
      0 < d.estimate ∧ (d.status = "done" ∨ d.status = "closed") ∧ d.id ≠ task.id) ∧
    (getSimilarTasks db task limit).length ≤ limit ∧
    (getSimilarTasksSelected db task limit).Pairwise updatedDesc := by
  have hsel : ∀ t ∈ getSimilarTasksSelected db task limit,
      (∃ e, t.estimate = some e ∧ 0 < e) ∧
      (t.status = "done" ∨ t.status = "closed") ∧ t.id ≠ task.id := by
    intro t ht
    have hc := mem_getSimilarTasksSelected ht
    unfold isSimilarCandidate at hc
    rcases Bool.and_eq_true_iff.1 hc with ⟨hc1, hid⟩
    rcases Bool.and_eq_true_iff.1 hc1 with ⟨hest, hst⟩
    refine ⟨?_, ?_, by simpa using hid⟩
    · cases he : t.estimate with
      | none => rw [he] at hest; cases hest
      | some e =>
          rw [he] at hest
          exact ⟨e, rfl, by simpa using hest⟩
    · rcases Bool.or_eq_true_iff.1 hst with h | h
      · exact Or.inl (by simpa using h)
      · exact Or.inr (by simpa using h)
  refine ⟨hsel, ?_, ?_, ?_⟩
  · intro d hd
    rcases List.mem_map.1 hd with ⟨t, ht, rfl⟩
    rcases hsel t ht with ⟨⟨e, he, hepos⟩, hst, hid⟩
    exact ⟨by simp [toSimilarTaskData, he, hepos], hst, hid⟩
  · calc (getSimilarTasks db task limit).length
        = (getSimilarTasksSelected db task limit).length := List.length_map _ _
      _ ≤ limit := by
          unfold getSimilarTasksSelected
          exact List.length_take_le _ _
  · have hs : ((db.filter (isSimilarCandidate task)).insertionSort updatedDesc).Sorted
        updatedDesc := List.sorted_insertionSort updatedDesc _
    exact hs.sublist (List.take_sublist _ _)

/-- Witness for C5 on a concrete database: two completed estimated
tasks are returned (newest first), an unestimated and an in-progress
task are filtered out. -/
theorem similar_tasks_selection_witness :
    0 < (getSimilarTasks
          [⟨2, "b", "", "done", "low", some 3, none, none, 5, []⟩,
           ⟨3, "c", "", "closed", "low", some 2, none, none, 9, []⟩,
           ⟨4, "d", "", "done", "low", none, none, none, 7, []⟩,
           ⟨5, "e", "", "in_progress", "low", some 4, none, none, 8, []⟩]
          ⟨1, "a", "", "todo", "medium", none, none, none, 0, []⟩ 10).length ∧
    (∀ d ∈ getSimilarTasks
          [⟨2, "b", "", "done", "low", some 3, none, none, 5, []⟩,
           ⟨3, "c", "", "closed", "low", some 2, none, none, 9, []⟩,
           ⟨4, "d", "", "done", "low", none, none, none, 7, []⟩,
           ⟨5, "e", "", "in_progress", "low", some 4, none, none, 8, []⟩]
          ⟨1, "a", "", "todo", "medium", none, none, none, 0, []⟩ 10,
      0 < d.estimate ∧ (d.status = "done" ∨ d.status = "closed") ∧ d.id ≠ 1) :=
  ⟨by decide,
   (similar_tasks_selection
      [⟨2, "b", "", "done", "low", some 3, none, none, 5, []⟩,
       ⟨3, "c", "", "closed", "low", some 2, none, none, 9, []⟩,
       ⟨4, "d", "", "done", "low", none, none, none, 7, []⟩,
       ⟨5, "e", "", "in_progress", "low", some 4, none, none, 8, []⟩]
      ⟨1, "a", "", "todo", "medium", none, none, none, 0, []⟩ 10).2.1⟩

/-! ## TaskEstimationService.can_estimate (services/estimation/service.py) -/

/-- The fallible collaborators `can_estimate` relies on: the task
repository's `exists` and `get_by_id` and the estimator's
`can_estimate`, each of which may raise (error type `E`). -/
structure EstimationDeps (E : Type) where
  existsTask : Nat → Except E Bool
  getById : Nat → Except E TaskRec
  canEstimateTask : TaskRec → Except E Bool

/-- `TaskEstimationService.can_estimate`: the whole body runs inside a
`try`; any raised exception is logged and turned into `False`. -/
def serviceCanEstimate {E : Type} (deps : EstimationDeps E) (task_id : Nat) :
    Bool :=
  let attempt : Except E Bool :=
    match deps.existsTask task_id with
    | .error e => .error e
    | .ok ex =>
      if !ex then
        .ok false
      else
        match deps.getById task_id with
        | .error e => .error e
        | .ok t => deps.canEstimateTask t
  match attempt with
  | .ok b => b
  | .error _ => false

/-- C8: `can_estimate` always returns a boolean: `False` for a missing
task and `False` whenever the repository or the estimator raises, and
the estimator's verdict when every call succeeds. -/
theorem can_estimate_never_raises {E : Type} (deps : EstimationDeps E)
    (tid : Nat) :
    (∀ e, deps.existsTask tid = .error e → serviceCanEstimate deps tid = false) ∧
    (deps.existsTask tid = .ok false → serviceCanEstimate deps tid = false) ∧
    (∀ e, deps.existsTask tid = .ok true → deps.getById tid = .error e →
      serviceCanEstimate deps tid = false) ∧
    (∀ t e, deps.existsTask tid = .ok true → deps.getById tid = .ok t →
      deps.canEstimateTask t = .error e → serviceCanEstimate deps tid = false) ∧
    (∀ t b, deps.existsTask tid = .ok true → deps.getById tid = .ok t →
      deps.canEstimateTask t = .ok b → serviceCanEstimate deps tid = b) := by
  refine ⟨?_, ?_, ?_, ?_, ?_⟩
  · intro e he
    simp [serviceCanEstimate, he]
  · intro he
    simp [serviceCanEstimate, he]
  · intro e he hg
    simp [serviceCanEstimate, he, hg]
  · intro t e he hg hc
    simp [serviceCanEstimate, he, hg, hc]
  · intro t b he hg hc
    simp [serviceCanEstimate, he, hg, hc]

/-- Witness for C8: concrete dependency stacks where the task is
missing, the repository raises, and the estimator raises, all yield
`false` rather than an error. -/
theorem can_estimate_never_raises_witness :
    serviceCanEstimate
      ⟨fun _ => .ok false, fun _ => .error "DoesNotExist", fun _ => .ok true⟩ 7
      = false ∧
    serviceCanEstimate
      (⟨fun _ => .error "db down", fun _ => .error "db down", fun _ => .ok true⟩ :
        EstimationDeps String) 7 = false ∧
    serviceCanEstimate
      ⟨fun _ => .ok true,
       fun _ => .ok ⟨7, "t", "d", "todo", "medium", none, none, none, 0, []⟩,
       fun _ => .error "estimator crashed"⟩ 7 = false :=
  ⟨(can_estimate_never_raises _ 7).2.1 rfl,
   (can_estimate_never_raises _ 7).1 "db down" rfl,
   (can_estimate_never_raises _ 7).2.2.2.1
     ⟨7, "t", "d", "todo", "medium", none, none, none, 0, []⟩
     "estimator crashed" rfl rfl rfl⟩

/-! ## TaskParserService (services/parser/service.py, parser/base.py) -/

/-- Python `str.strip()`: drop leading and trailing whitespace. -/
def pyStrip (s : String) : String :=
  String.mk (((s.data.dropWhile Char.isWhitespace).reverse.dropWhile
    Char.isWhitespace).reverse)

/-- Accumulator pass behind `pyWords`. -/
def pyWordsAux (cur : List Char) : List Char → List String
  | [] => if cur = [] then [] else [String.mk cur.reverse]
  | c :: cs =>
      if c.isWhitespace then
        if cur = [] then pyWordsAux [] cs
        else String.mk cur.reverse :: pyWordsAux [] cs
      else pyWordsAux (c :: cur) cs

/-- Python `str.split()` with no argument: split on whitespace runs,
dropping empty pieces. -/
def pyWords (s : String) : List String :=
  pyWordsAux [] s.data

/-- `ParseResult` (services/parser/base.py). -/
structure ParseResult where
  title : String
  description : String
  priority : String
  estimate : Option Nat
  due_date : Option String
  task_type : String
  tags : List String
  confidence_score : ℚ
  raw_text : String
  deriving DecidableEq

/-- Errors surfaced by `parse_text_to_task_data`: the service's own
pre-parsing `ParserError` versus a `ParserError` raised by the
underlying parser. -/
inductive ParserServiceError where
  | validationFailed (errors : List String)
  | parserFailed (message : String)
  deriving DecidableEq

/-- The dictionary returned by `_validate_parsing_request`. -/
structure ValidationOutcome where
  is_valid : Bool
  errors : List String
  warnings : List String
  deriving DecidableEq

/-- `_validate_parsing_request`: empty, too-short and too-long checks
plus a brevity warning; valid iff no error was collected. -/
def validateParsingRequest (text : String) : ValidationOutcome :=
  let e1 : List String :=
    if text = "" ∨ pyStrip text = "" then ["Text cannot be empty"] else []
  let e2 : List String :=
    if text ≠ "" ∧ (pyStrip text).length < 5 then
      ["Text too short - please provide more details"] else []
  let e3 : List String :=
    if text ≠ "" ∧ 2000 < text.length then
      ["Text too long - please keep under 2000 characters"] else []
  let errors := e1 ++ e2 ++ e3
  let warnings : List String :=
    if text ≠ "" ∧ (pyWords text).length < 3 then
      ["Very brief text - parsing may be less accurate"] else []
  { is_valid := decide (errors = []), errors := errors, warnings := warnings }

/-- `_enhance_parse_result`: backfill empty title/description, normalize
priority and task type onto the closed enums. -/
def enhanceParseResult (r : ParseResult) : ParseResult :=
  let r := if r.title = "" ∨ pyStrip r.title = "" then { r with title := "New Task" } else r
  let r := if r.description = "" ∨ pyStrip r.description = "" then
      { r with description :=
          if r.raw_text ≠ "" then r.raw_text else "No description provided" }
    else r
  let r := if r.priority = "low" ∨ r.priority = "medium" ∨ r.priority = "high" ∨
      r.priority = "urgent" then r else { r with priority := "medium" }
  let r := if r.task_type = "task" ∨ r.task_type = "bug" ∨ r.task_type = "feature" ∨
      r.task_type = "story" ∨ r.task_type = "epic" then r
    else { r with task_type := "task" }
  r

/-- `parse_text_to_task_data`, with the underlying parser abstracted as a
fallible function.  The boolean records whether the parser was invoked. -/
def parseTextToTaskData (parser : String → Except String ParseResult)
    (text : String) : Except ParserServiceError ParseResult × Bool :=
  let v := validateParsingRequest text
  if v.is_valid then
    match parser text with
    | .ok r => (.ok (enhanceParseResult r), true)
    | .error e => (.error (.parserFailed e), true)
  else
    (.error (.validationFailed v.errors), false)

theorem pyStrip_empty : pyStrip "" = "" := rfl

/-- C6: the pre-parsing validation accepts exactly the texts that are
non-blank, at least 5 characters after stripping and at most 2000
characters long; outside these bounds a `ParserError` is raised before
the parser is invoked, and inside them no validation error is raised. -/
theorem parser_validation_bounds (parser : String → Except String ParseResult)
    (text : String) :
    ((validateParsingRequest text).is_valid = true ↔
      (pyStrip text ≠ "" ∧ 5 ≤ (pyStrip text).length ∧ text.length ≤ 2000)) ∧
    ((validateParsingRequest text).is_valid = false →
      parseTextToTaskData parser text =
        (.error (.validationFailed (validateParsingRequest text).errors), false)) ∧
    ((validateParsingRequest text).is_valid = true →
      (parseTextToTaskData parser text).2 = true ∧
      ∀ msgs, (parseTextToTaskData parser text).1 ≠
        .error (.validationFailed msgs)) := by
  refine ⟨?_, ?_, ?_⟩
  · by_cases c0 : text = ""
    · subst c0
      simp [validateParsingRequest, pyStrip_empty]
    · by_cases c1 : pyStrip text = ""
      all_goals by_cases c2 : (pyStrip text).length < 5
      all_goals by_cases c3 : 2000 < text.length
      all_goals simp [validateParsingRequest, c0, c1, c2, c3]
      all_goals omega
  · intro h
    unfold parseTextToTaskData
    simp [h]
  · intro h
    unfold parseTextToTaskData
    simp only [h, if_true]
    constructor
    · cases parser text <;> simp
    · intro msgs
      cases parser text <;> simp

/-- Witness for C6: "hi" is rejected before the parser runs; a
well-formed request is accepted and reaches the parser. -/
theorem parser_validation_bounds_witness :
    (validateParsingRequest "hi").is_valid = false ∧
    parseTextToTaskData (fun t => .ok ⟨"T", "D", "medium", none, none, "task", [], 0, t⟩)
        "hi" =
      (.error (.validationFailed ["Text too short - please provide more details"]),
       false) ∧
    (validateParsingRequest "Fix the login page bug").is_valid = true ∧
    (parseTextToTaskData (fun t => .ok ⟨"T", "D", "medium", none, none, "task", [], 0, t⟩)
        "Fix the login page bug").2 = true :=
  ⟨by decide,
   by
    have h := (parser_validation_bounds
      (fun t => .ok ⟨"T", "D", "medium", none, none, "task", [], 0, t⟩) "hi").2.1
      (by decide)
    rw [h]
    rfl,
   by decide,
   ((parser_validation_bounds
      (fun t => .ok ⟨"T", "D", "medium", none, none, "task", [], 0, t⟩)
      "Fix the login page bug").2.2 (by decide)).1⟩

/-! ## EstimationResultBuilder (services/builders.py) -/

/-- A similar-task entry of an `EstimationResult` (id, title, estimate,
priority, similarity score). -/
structure SimilarEntry where
  id : Nat
  title : String
  estimate : ℚ
  priority : String
  similarity_score : ℚ
  deriving DecidableEq

/-- `EstimationResult` (services/estimation/base.py); the metadata bag is
modelled as a string-keyed association list. -/
structure EstimationResult where
  estimated_hours : ℚ
  confidence_score : ℚ
  reasoning : String
  similar_tasks : List SimilarEntry
  metadata : List (String × String)
  deriving DecidableEq

/-- Internal state of `EstimationResultBuilder`. -/
structure EstimationResultBuilder where
  estimated_hours : ℚ
  confidence_score : ℚ
  reasoning_parts : List String
  similar_tasks : List SimilarEntry
  metadata : List (String × String)
  deriving DecidableEq

/-- `EstimationResultBuilder.reset` / `__init__`. -/
def EstimationResultBuilder.reset : EstimationResultBuilder :=
  ⟨0, 0, [], [], []⟩

/-- Python `round(q, 1)`: round to the nearest tenth.  (Mathlib's `round`
breaks .05 ties upward; exact ties are not representable in the floats
Python rounds, so the bound claims are unaffected.) -/
def round1 (q : ℚ) : ℚ :=
  ((round (10 * q) : ℤ) : ℚ) / 10

/-- Python `c in s` for a single-character needle. -/
def containsChar (s : String) (c : Char) : Bool :=
  s.data.contains c

/-- `set_hours`: clamp to the "reasonable bounds" `max(0.1, min(h, 500))`. -/
def EstimationResultBuilder.setHours (b : EstimationResultBuilder) (hours : ℚ) :
    EstimationResultBuilder :=
  { b with estimated_hours := max 0.1 (min hours 500) }

/-- `set_confidence`: clamp to `[0, 1]`. -/
def EstimationResultBuilder.setConfidence (b : EstimationResultBuilder) (confidence : ℚ) :
    EstimationResultBuilder :=
  { b with confidence_score := max 0 (min confidence 1) }

/-- `add_reasoning_section`: push the title, an `=`-underline unless the
title already looks formatted, and the content prefixed by a blank. -/
def EstimationResultBuilder.addReasoningSection (b : EstimationResultBuilder)
    (title content : String) : EstimationResultBuilder :=
  let b1 :=
    if title ≠ "" then
      let b0 := { b with reasoning_parts := b.reasoning_parts ++ [title] }
      if containsChar title '=' || containsChar title '-' then b0
      else { b0 with reasoning_parts :=
              b0.reasoning_parts ++ [String.mk (List.replicate title.length '=')] }
    else b
  if content ≠ "" then
    { b1 with reasoning_parts := b1.reasoning_parts ++ ["", content] }
  else b1

/-- `add_reasoning_list`: one `f"{prefix} {item}"` line per item. -/
def EstimationResultBuilder.addReasoningList (b : EstimationResultBuilder)
    (items : List String) (pref : String) : EstimationResultBuilder :=
  { b with reasoning_parts :=
      b.reasoning_parts ++ items.map (fun item => pref ++ " " ++ item) }

/-- `add_reasoning_text`: a blank line plus the text, when non-empty. -/
def EstimationResultBuilder.addReasoningText (b : EstimationResultBuilder)
    (text : String) : EstimationResultBuilder :=
  if text ≠ "" then { b with reasoning_parts := b.reasoning_parts ++ ["", text] }
  else b

/-- `set_similar_tasks`: keep only the first five entries. -/
def EstimationResultBuilder.setSimilarTasks (b : EstimationResultBuilder)
    (similar_tasks : List SimilarEntry) : EstimationResultBuilder :=
  { b with similar_tasks := similar_tasks.take 5 }

/-- `set_metadata`: replace the metadata bag. -/
def EstimationResultBuilder.setMetadata (b : EstimationResultBuilder)
    (metadata : List (String × String)) : EstimationResultBuilder :=
  { b with metadata := metadata }

/-- Python `"\n".join`. -/
def joinNL : List String → String
  | [] => ""
  | [s] => s
  | s :: rest => s ++ "\n" ++ joinNL rest

/-- `build`: round the hours to one decimal and join the reasoning parts
(defaulting when none were added). -/
def EstimationResultBuilder.build (b : EstimationResultBuilder) : EstimationResult :=
  { estimated_hours := round1 b.estimated_hours
    confidence_score := b.confidence_score
    reasoning :=
      if b.reasoning_parts = [] then "No reasoning provided"
      else joinNL b.reasoning_parts
    similar_tasks := b.similar_tasks
    metadata := b.metadata }

/-- One reasoning-building call on the builder. -/
inductive ReasoningOp where
  | sec (title content : String)
  | lst (items : List String) (pref : String)
  | txt (text : String)

/-- Apply one reasoning call. -/
def applyReasoningOp (b : EstimationResultBuilder) : ReasoningOp →
    EstimationResultBuilder
  | .sec title content => b.addReasoningSection title content
  | .lst items pref => b.addReasoningList items pref
  | .txt text => b.addReasoningText text

/-- Apply a sequence of reasoning calls. -/
def applyReasoningOps (b : EstimationResultBuilder) (ops : List ReasoningOp) :
    EstimationResultBuilder :=
  ops.foldl applyReasoningOp b

/-- Reachable shapes of the reasoning-parts list: empty, two or more
entries, or a single non-empty entry. -/
def goodParts (l : List String) : Prop :=
  l = [] ∨ 2 ≤ l.length ∨ ∃ x, l = [x] ∧ x ≠ ""

theorem str_ne_empty_of_length_pos {s : String} (h : 0 < s.length) : s ≠ "" := by
  intro he
  subst he
  simp at h

theorem goodParts_append {l m : List String} (hl : goodParts l) (hm : goodParts m) :
    goodParts (l ++ m) := by
  rcases hl with rfl | hl | ⟨x, rfl, hx⟩
  · simpa using hm
  · exact Or.inr (Or.inl (by rw [List.length_append]; omega))
  · rcases hm with rfl | hm | ⟨y, rfl, _⟩
    · exact Or.inr (Or.inr ⟨x, by simp, hx⟩)
    · exact Or.inr (Or.inl (by rw [List.length_append]; omega))
    · exact Or.inr (Or.inl (by simp))

theorem addReasoningSection_parts (b : EstimationResultBuilder)
    (title content : String) :
    (b.addReasoningSection title content).reasoning_parts =
      b.reasoning_parts ++
        ((if title ≠ "" then
            [title] ++
              (if containsChar title '=' || containsChar title '-' then []
               else [String.mk (List.replicate title.length '=')])
          else []) ++
         (if content ≠ "" then ["", content] else [])) := by
  unfold EstimationResultBuilder.addReasoningSection
  by_cases h1 : title ≠ "" <;> by_cases h2 : containsChar title '=' || containsChar title '-' <;>
    by_cases h3 : content ≠ "" <;> simp [h1, h2, h3]

theorem goodParts_applyReasoningOp (b : EstimationResultBuilder) (op : ReasoningOp)
    (h : goodParts b.reasoning_parts) :
    goodParts (applyReasoningOp b op).reasoning_parts := by
  cases op with
  | sec title content =>
      rw [show applyReasoningOp b (.sec title content) =
            b.addReasoningSection title content from rfl,
          addReasoningSection_parts]
      refine goodParts_append h ?_
      refine goodParts_append ?_ ?_
      · split_ifs with h1 h2
        · exact Or.inr (Or.inr ⟨title, rfl, h1⟩)
        · exact Or.inr (Or.inl (by simp))
        · exact Or.inl rfl
      · split_ifs with h1
        · exact Or.inr (Or.inl (by simp))
        · exact Or.inl rfl
  | lst items pref =>
      refine goodParts_append h ?_
      cases items with
      | nil => exact Or.inl rfl
      | cons a rest =>
          cases rest with
          | nil =>
              refine Or.inr (Or.inr ⟨pref ++ " " ++ a, by simp, ?_⟩)
              refine str_ne_empty_of_length_pos ?_
              rw [String.length_append, String.length_append]
              have : (" " : String).length = 1 := rfl
              omega
          | cons c t =>
              exact Or.inr (Or.inl (by
                simp only [List.length_map, List.length_cons]
                omega))
  | txt text =>
      show goodParts (b.addReasoningText text).reasoning_parts
      unfold EstimationResultBuilder.addReasoningText
      split_ifs with h1
      · exact goodParts_append h (Or.inr (Or.inl (by simp)))
      · exact h

theorem applyReasoningOp_frame (b : EstimationResultBuilder) (op : ReasoningOp) :
    (applyReasoningOp b op).estimated_hours = b.estimated_hours ∧
    (applyReasoningOp b op).confidence_score = b.confidence_score ∧
    (applyReasoningOp b op).similar_tasks = b.similar_tasks ∧
    (applyReasoningOp b op).metadata = b.metadata := by
  cases op with
  | sec title content =>
      simp only [applyReasoningOp]
      unfold EstimationResultBuilder.addReasoningSection
      split_ifs <;> exact ⟨rfl, rfl, rfl, rfl⟩
  | lst items pref => exact ⟨rfl, rfl, rfl, rfl⟩
  | txt text =>
      simp only [applyReasoningOp]
      unfold EstimationResultBuilder.addReasoningText
      split_ifs <;> exact ⟨rfl, rfl, rfl, rfl⟩

theorem applyReasoningOps_spec (ops : List ReasoningOp) :
    ∀ b : EstimationResultBuilder,
      (applyReasoningOps b ops).estimated_hours = b.estimated_hours ∧
      (applyReasoningOps b ops).confidence_score = b.confidence_score ∧
      (applyReasoningOps b ops).similar_tasks = b.similar_tasks ∧
      (applyReasoningOps b ops).metadata = b.metadata ∧
      (goodParts b.reasoning_parts →
        goodParts (applyReasoningOps b ops).reasoning_parts) := by
  induction ops with
  | nil => intro b; exact ⟨rfl, rfl, rfl, rfl, fun h => h⟩
  | cons op rest ih =>
      intro b
      have hstep := applyReasoningOp_frame b op
      have hrest := ih (applyReasoningOp b op)
      refine ⟨?_, ?_, ?_, ?_, ?_⟩
      · exact hrest.1.trans hstep.1
      · exact hrest.2.1.trans hstep.2.1
      · exact hrest.2.2.1.trans hstep.2.2.1
      · exact hrest.2.2.2.1.trans hstep.2.2.2
      · intro h
        exact hrest.2.2.2.2 (goodParts_applyReasoningOp b op h)

theorem joinNL_ne_empty {l : List String} (hg : goodParts l) (hne : l ≠ []) :
    joinNL l ≠ "" := by
  rcases hg with rfl | hl | ⟨x, rfl, hx⟩
  · exact absurd rfl hne
  · match l, hl with
    | a :: c :: t, _ =>
        show a ++ "\n" ++ joinNL (c :: t) ≠ ""
        refine str_ne_empty_of_length_pos ?_
        rw [String.length_append, String.length_append]
        have : ("\n" : String).length = 1 := rfl
        omega
  · simpa [joinNL] using hx

theorem round1_mono {a b : ℚ} (h : a ≤ b) : round1 a ≤ round1 b := by
  unfold round1
  have h10 : (10 : ℚ) * a ≤ 10 * b := by linarith
  have hr : round (10 * a) ≤ round (10 * b) := by
    rw [round_eq, round_eq]
    exact Int.floor_le_floor (by linarith)
  have : ((round (10 * a) : ℤ) : ℚ) ≤ ((round (10 * b) : ℤ) : ℚ) := by
    exact_mod_cast hr
  linarith

theorem round1_tenth : round1 (1 / 10) = 1 / 10 := by
  unfold round1
  norm_num [round_one]

theorem round1_fivehundred : round1 500 = 500 := by
  unfold round1
  rw [show (10 : ℚ) * 500 = ((5000 : ℤ) : ℚ) by norm_num, round_intCast]
  norm_num

/-- The builder pipeline as used at every call site: set hours and
confidence, add reasoning, set the similar tasks and the metadata bag,
then build. -/
def builtEstimation (hours confidence : ℚ) (ops : List ReasoningOp)
    (sims : List SimilarEntry) (meta : List (String × String)) : EstimationResult :=
  ((((applyReasoningOps
        ((EstimationResultBuilder.reset.setHours hours).setConfidence confidence)
        ops).setSimilarTasks sims).setMetadata meta)).build

/-- C4 (amended): every built `EstimationResult` has `estimated_hours` in
`[0.1, 500]` and equal to an integer number of tenths, confidence in
`[0, 1]`, a non-empty reasoning string, and at most five similar tasks —
for all inputs passed to the builder. -/
theorem estimation_result_invariants (hours confidence : ℚ)
    (ops : List ReasoningOp) (sims : List SimilarEntry)
    (meta : List (String × String)) :
    (1 / 10 ≤ (builtEstimation hours confidence ops sims meta).estimated_hours ∧
      (builtEstimation hours confidence ops sims meta).estimated_hours ≤ 500) ∧
    (∃ n : ℤ, (builtEstimation hours confidence ops sims meta).estimated_hours =
      (n : ℚ) / 10) ∧
    (0 ≤ (builtEstimation hours confidence ops sims meta).confidence_score ∧
      (builtEstimation hours confidence ops sims meta).confidence_score ≤ 1) ∧
    (builtEstimation hours confidence ops sims meta).reasoning ≠ "" ∧
    (builtEstimation hours confidence ops sims meta).similar_tasks.length ≤ 5 := by
  have hops := applyReasoningOps_spec ops
    ((EstimationResultBuilder.reset.setHours hours).setConfidence confidence)
  have hE : (builtEstimation hours confidence ops sims meta).estimated_hours =
      round1 ((applyReasoningOps
        ((EstimationResultBuilder.reset.setHours hours).setConfidence confidence)
        ops).estimated_hours) := rfl
  have hC : (builtEstimation hours confidence ops sims meta).confidence_score =
      (applyReasoningOps
        ((EstimationResultBuilder.reset.setHours hours).setConfidence confidence)
        ops).confidence_score := rfl
  have hh : (builtEstimation hours confidence ops sims meta).estimated_hours =
      round1 (max 0.1 (min hours 500)) := by rw [hE, hops.1]; rfl
  have hc : (builtEstimation hours confidence ops sims meta).confidence_score =
      max 0 (min confidence 1) := by rw [hC, hops.2.1]; rfl
  have hgood : goodParts (applyReasoningOps
      ((EstimationResultBuilder.reset.setHours hours).setConfidence confidence)
      ops).reasoning_parts :=
    hops.2.2.2.2 (Or.inl rfl)
  have hlow : (1 : ℚ) / 10 ≤ max 0.1 (min hours 500) := by
    refine le_trans ?_ (le_max_left _ _)
    norm_num
  have hhigh : max 0.1 (min hours 500) ≤ 500 :=
    max_le (by norm_num) (min_le_right _ _)
  refine ⟨⟨?_, ?_⟩, ⟨round (10 * max 0.1 (min hours 500)), ?_⟩, ⟨?_, ?_⟩, ?_, ?_⟩
  · rw [hh]
    calc (1 : ℚ) / 10 = round1 (1 / 10) := round1_tenth.symm
      _ ≤ _ := round1_mono hlow
  · rw [hh]
    calc round1 (max 0.1 (min hours 500)) ≤ round1 500 := round1_mono hhigh
      _ = 500 := round1_fivehundred
  · rw [hh]
    rfl
  · rw [hc]
    exact le_max_left _ _
  · rw [hc]
    exact max_le (by norm_num) (min_le_right _ _)
  · have hR : (builtEstimation hours confidence ops sims meta).reasoning =
        (if (applyReasoningOps
            ((EstimationResultBuilder.reset.setHours hours).setConfidence confidence)
            ops).reasoning_parts = [] then "No reasoning provided"
         else joinNL (applyReasoningOps
            ((EstimationResultBuilder.reset.setHours hours).setConfidence confidence)
            ops).reasoning_parts) := rfl
    rw [hR]
    split_ifs with hp
    · decide
    · exact joinNL_ne_empty hgood hp
  · have hS : (builtEstimation hours confidence ops sims meta).similar_tasks =
        sims.take 5 := rfl
    rw [hS]
    exact List.length_take_le _ _

/-- C4 counterexample to the claim as stated: at builder input `hours = 0`
the built estimate is exactly `0.1`, which does not lie in the open-below
interval `(0.1, 500]`. -/
theorem estimation_result_bounds_counterexample :
    (builtEstimation 0 0 [] [] []).estimated_hours = 1 / 10 ∧
    ¬ (1 / 10 < (builtEstimation 0 0 [] [] []).estimated_hours ∧
        (builtEstimation 0 0 [] [] []).estimated_hours ≤ 500) := by
  have h : (builtEstimation 0 0 [] [] []).estimated_hours = 1 / 10 := by
    show round1 (max 0.1 (min 0 500)) = 1 / 10
    rw [show max (0.1 : ℚ) (min 0 500) = 1 / 10 by norm_num]
    exact round1_tenth
  refine ⟨h, ?_⟩
  rw [h]
  intro hcontra
  exact absurd hcontra.1 (by norm_num)

/-! ## Progress-streaming protocol (websockets/base.py, ai_consumers.py) -/

/-- One declared operation step (`{"name": ..., "progress": ...,
"message": ...}`); every step list declared by the consumers carries all
three keys. -/
structure OpStep where
  name : String
  progress : Nat
  message : String
  deriving DecidableEq

/-- An outbound websocket event, keyed by its `type` field. -/
inductive WsEvent where
  | progressEv (message : String) (progress : Option Nat) (step : Option String)
  | successEv (payload : List (String × String))
  | errorEv (message : String) (code : Option String)
  deriving DecidableEq

/-- `send_progress`: the `progress` key is included when not `None`, the
`step` key when truthy (so an empty string is dropped). -/
def sendProgress (message : String) (progress : Option Nat)
    (step : Option String) : WsEvent :=
  .progressEv message progress
    (match step with
     | some s => if s = "" then none else some s
     | none => none)

/-- `send_error`: the `code` key is included when truthy. -/
def sendError (message : String) (code : Option String) : WsEvent :=
  .errorEv message
    (match code with
     | some c => if c = "" then none else some c
     | none => none)

/-- `ProgressTrackingMixin` state: the declared step list and the cursor. -/
structure ProgressTracker where
  operation_steps : List OpStep
  current_step : Nat
  deriving DecidableEq

/-- `__init__`: no steps, cursor 0. -/
def ProgressTracker.start : ProgressTracker := ⟨[], 0⟩

/-- `set_operation_steps`. -/
def setOperationSteps (_st : ProgressTracker) (steps : List OpStep) :
    ProgressTracker :=
  ⟨steps, 0⟩

/-- `progress_to_next_step`: emit one progress event for the step under
the cursor and advance it; past the end of the declared list, do
nothing.  A falsy (`None` or empty) message argument falls back to the
step's declared message. -/
def progressToNextStep (st : ProgressTracker) (message : Option String) :
    ProgressTracker × List WsEvent :=
  if h : st.current_step < st.operation_steps.length then
    let stepInfo := st.operation_steps.get ⟨st.current_step, h⟩
    let displayMessage :=
      match message with
      | some m => if m = "" then stepInfo.message else m
      | none => stepInfo.message
    ({ st with current_step := st.current_step + 1 },
     [sendProgress displayMessage (some stepInfo.progress) (some stepInfo.name)])
  else
    (st, [])

/-- `complete_operation`: the final 100%/"complete" progress event
followed immediately by the success event. -/
def completeOperation (st : ProgressTracker)
    (success_data : List (String × String)) : ProgressTracker × List WsEvent :=
  (st, [sendProgress "Operation completed!" (some 100) (some "complete"),
        .successEv success_data])

/-- `n` successive `progress_to_next_step` calls (no explicit message),
collecting the emitted events. -/
def stepTimes (st : ProgressTracker) : Nat → ProgressTracker × List WsEvent
  | 0 => (st, [])
  | n + 1 =>
      let r := progressToNextStep st none
      let r2 := stepTimes r.1 n
      (r2.1, r.2 ++ r2.2)

/-- Outcome of the guarded body of a streaming operation: success with a
payload, or failure after `k` completed steps (the consumers then call
`send_error`). -/
inductive OpOutcome where
  | success (payload : List (String × String))
  | failAt (k : Nat) (message : String) (code : Option String)

/-- The streaming-operation pattern of the consumers
(`handle_parse_request` etc.): declare the steps, emit one progress
event per completed step, then either `complete_operation` or
`send_error`. -/
def runStreamingOperation (steps : List OpStep) (outcome : OpOutcome) :
    List WsEvent :=
  let st := setOperationSteps ProgressTracker.start steps
  match outcome with
  | .success payload =>
      let r := stepTimes st steps.length
      r.2 ++ (completeOperation r.1 payload).2
  | .failAt k message code =>
      let r := stepTimes st k
      r.2 ++ [sendError message code]

/-- The progress event `progress_to_next_step` emits for a declared step. -/
def progressEventOf (s : OpStep) : WsEvent :=
  sendProgress s.message (some s.progress) (some s.name)

/-- The step list `handle_parse_request` declares. -/
def parseOperationSteps : List OpStep :=
  [⟨"analyze_text", 30, "Analyzing text..."⟩,
   ⟨"extract_data", 70, "Extracting task information..."⟩]

theorem stepTimes_emits : ∀ (n : Nat) (steps : List OpStep) (c : Nat),
    c + n ≤ steps.length →
    stepTimes ⟨steps, c⟩ n =
      (⟨steps, c + n⟩, ((steps.drop c).take n).map progressEventOf) := by
  intro n
  induction n with
  | zero =>
      intro steps c h
      simp [stepTimes]
  | succ n ih =>
      intro steps c h
      have hc : c < steps.length := by omega
      have hstep : progressToNextStep ⟨steps, c⟩ none =
          (⟨steps, c + 1⟩, [progressEventOf (steps.get ⟨c, hc⟩)]) := by
        unfold progressToNextStep
        rw [dif_pos hc]
        rfl
      have hrest := ih steps (c + 1) (by omega)
      show (let r := progressToNextStep ⟨steps, c⟩ none
            let r2 := stepTimes r.1 n
            (r2.1, r.2 ++ r2.2)) = _
      rw [hstep]
      simp only [hrest]
      have hdrop : steps.drop c = steps.get ⟨c, hc⟩ :: steps.drop (c + 1) :=
        List.drop_eq_getElem_cons hc
      have hcc : c + 1 + n = c + (n + 1) := by omega
      rw [hcc, hdrop, List.take_succ_cons, List.map_cons]
      simp

/-- C2: a successful streaming operation over a declared step list of
length `N` emits exactly the `N` declared progress events in order, then
the single 100%/"complete" progress event, then a single success event
and nothing after it; an operation failing after `k ≤ N` steps emits
exactly the first `k` progress events followed by a single error event;
`progress_to_next_step` past the end of the declared list emits nothing;
and each emitted progress event carries the step's declared name,
message and percentage. -/
theorem streaming_progress_protocol (steps : List OpStep) (k : Nat)
    (msg : String) (code : Option String) (payload : List (String × String))
    (hk : k ≤ steps.length) :
    runStreamingOperation steps (.success payload) =
      steps.map progressEventOf ++
        [.progressEv "Operation completed!" (some 100) (some "complete"),
         .successEv payload] ∧
    runStreamingOperation steps (.failAt k msg code) =
      (steps.take k).map progressEventOf ++ [sendError msg code] ∧
    (∀ st : ProgressTracker, st.operation_steps.length ≤ st.current_step →
      progressToNextStep st none = (st, [])) ∧
    (∀ s : OpStep, s.name ≠ "" →
      progressEventOf s = .progressEv s.message (some s.progress) (some s.name)) := by
  refine ⟨?_, ?_, ?_, ?_⟩
  · show (stepTimes ⟨steps, 0⟩ steps.length).2 ++
        (completeOperation (stepTimes ⟨steps, 0⟩ steps.length).1 payload).2 = _
    rw [stepTimes_emits steps.length steps 0 (by omega)]
    simp [completeOperation, sendProgress]
  · show (stepTimes ⟨steps, 0⟩ k).2 ++ [sendError msg code] = _
    rw [stepTimes_emits k steps 0 (by omega)]
    simp
  · intro st hlen
    unfold progressToNextStep
    rw [dif_neg (by omega)]
  · intro s hs
    unfold progressEventOf sendProgress
    simp [hs]

/-- Witness for C2 at the parse consumer's declared steps, with a
failure after its first step. -/
theorem streaming_progress_protocol_witness :
    runStreamingOperation parseOperationSteps (.success [("parsed", "ok")]) =
      [.progressEv "Analyzing text..." (some 30) (some "analyze_text"),
       .progressEv "Extracting task information..." (some 70) (some "extract_data"),
       .progressEv "Operation completed!" (some 100) (some "complete"),
       .successEv [("parsed", "ok")]] ∧
    runStreamingOperation parseOperationSteps
        (.failAt 1 "Parsing failed: boom" (some "parse_error")) =
      [.progressEv "Analyzing text..." (some 30) (some "analyze_text"),
       .errorEv "Parsing failed: boom" (some "parse_error")] := by
  have h := streaming_progress_protocol parseOperationSteps 1
    "Parsing failed: boom" (some "parse_error") [("parsed", "ok")] (by decide)
  exact ⟨h.1.trans (by decide), h.2.1.trans (by decide)⟩

/-! ## MockEstimationBuilder and MockAISimilarityEstimator
(services/builders.py, services/estimation/ai_similarity.py) -/

/-- The priority multiplier table, defaulting to 1.0 for unknown
priorities. -/
def priorityMultipliers (p : String) : ℚ :=
  if p = "low" then 0.8
  else if p = "medium" then 1.0
  else if p = "high" then 1.2
  else if p = "urgent" then 1.4
  else 1.0

/-- `MockEstimationBuilder` state. -/
structure MockEstimationBuilder where
  task : TaskRec
  complexity_factors : List String
  base_hours : ℚ
  priority_multiplier : ℚ
  variance_factor : ℚ

/-- `MockEstimationBuilder.__init__`. -/
def MockEstimationBuilder.start (task : TaskRec) : MockEstimationBuilder :=
  ⟨task, [], 3.0, 1.0, 1.0⟩

/-- `analyze_title_complexity`: ×1.3 above 8 words, ×0.8 below 3. -/
def MockEstimationBuilder.analyzeTitleComplexity (b : MockEstimationBuilder) :
    MockEstimationBuilder :=
  let title_words := (pyWords b.task.title).length
  if 8 < title_words then
    { b with base_hours := b.base_hours * 1.3
             complexity_factors := b.complexity_factors ++ ["Complex title"] }
  else if title_words < 3 then
    { b with base_hours := b.base_hours * 0.8
             complexity_factors := b.complexity_factors ++ ["Simple title"] }
  else b

/-- `analyze_description_complexity`: guarded by Python truthiness of the
description; ×1.5 above 100 words, ×0.9 below 20. -/
def MockEstimationBuilder.analyzeDescriptionComplexity (b : MockEstimationBuilder) :
    MockEstimationBuilder :=
  if b.task.description ≠ "" then
    let desc_words := (pyWords b.task.description).length
    if 100 < desc_words then
      { b with base_hours := b.base_hours * 1.5
               complexity_factors := b.complexity_factors ++ ["Detailed description"] }
    else if desc_words < 20 then
      { b with base_hours := b.base_hours * 0.9
               complexity_factors := b.complexity_factors ++ ["Brief description"] }
    else b
  else b

/-- `analyze_priority_impact`. -/
def MockEstimationBuilder.analyzePriorityImpact (b : MockEstimationBuilder) :
    MockEstimationBuilder :=
  let m := priorityMultipliers b.task.priority
  let b2 := { b with priority_multiplier := m, base_hours := b.base_hours * m }
  if m ≠ 1.0 then
    { b2 with complexity_factors :=
        b2.complexity_factors ++ [b.task.priority ++ " priority"] }
  else b2

/-- `apply_similar_tasks_influence`: blend 70% of the similar-task
average with 30% of the computed base when similar tasks exist. -/
def MockEstimationBuilder.applySimilarTasksInfluence (b : MockEstimationBuilder)
    (similar_tasks : List SimilarTaskData) : MockEstimationBuilder :=
  if similar_tasks ≠ [] then
    let avg_similar_estimate : ℚ :=
      ((similar_tasks.map (fun t => (t.estimate : ℚ))).sum) / similar_tasks.length
    { b with base_hours := avg_similar_estimate * 0.7 + b.base_hours * 0.3
             complexity_factors := b.complexity_factors ++
               ["Based on " ++ toString similar_tasks.length ++ " similar tasks"] }
  else b

/-- `apply_deterministic_variance`: `random.seed(task.id)` followed by
`random.uniform(0.85, 1.15)` is a fixed function of the task id alone;
it is abstracted as the parameter `varOfSeed`. -/
def MockEstimationBuilder.applyDeterministicVariance (b : MockEstimationBuilder)
    (varOfSeed : Nat → ℚ) : MockEstimationBuilder :=
  { b with variance_factor := varOfSeed b.task.id }

/-- `get_estimated_hours`. -/
def MockEstimationBuilder.getEstimatedHours (b : MockEstimationBuilder) : ℚ :=
  b.base_hours * b.variance_factor

/-- The builder chain of `MockAISimilarityEstimator.estimate_task`. -/
def mockEstimationHours (task : TaskRec) (similar_tasks : List SimilarTaskData)
    (varOfSeed : Nat → ℚ) : ℚ :=
  (((((MockEstimationBuilder.start task).analyzeTitleComplexity
      ).analyzeDescriptionComplexity).analyzePriorityImpact
      ).applySimilarTasksInfluence similar_tasks
      ).applyDeterministicVariance varOfSeed |>.getEstimatedHours

/-- `_calculate_mock_confidence`. -/
def calculateMockConfidence (task : TaskRec)
    (similar_tasks : List SimilarTaskData) : ℚ :=
  let confidence : ℚ := 0.75
  let confidence :=
    if similar_tasks ≠ [] then
      confidence + min ((similar_tasks.length : ℚ) * 0.03) 0.15
    else confidence
  let confidence :=
    if task.description ≠ "" ∧ 50 < task.description.length then confidence + 0.05
    else confidence
  min confidence 0.9

theorem analyzeTitle_spec (b : MockEstimationBuilder) :
    (b.analyzeTitleComplexity).base_hours =
      b.base_hours * (if 8 < (pyWords b.task.title).length then 1.3
        else if (pyWords b.task.title).length < 3 then 0.8 else 1) ∧
    (b.analyzeTitleComplexity).task = b.task ∧
    (b.analyzeTitleComplexity).variance_factor = b.variance_factor := by
  simp only [MockEstimationBuilder.analyzeTitleComplexity]
  split_ifs <;> refine ⟨?_, rfl, rfl⟩ <;> ring

theorem analyzeDescription_spec (b : MockEstimationBuilder) :
    (b.analyzeDescriptionComplexity).base_hours =
      b.base_hours * (if b.task.description ≠ "" then
        (if 100 < (pyWords b.task.description).length then 1.5
         else if (pyWords b.task.description).length < 20 then 0.9 else 1)
        else 1) ∧
    (b.analyzeDescriptionComplexity).task = b.task ∧
    (b.analyzeDescriptionComplexity).variance_factor = b.variance_factor := by
  simp only [MockEstimationBuilder.analyzeDescriptionComplexity]
  split_ifs <;> refine ⟨?_, rfl, rfl⟩ <;> ring

theorem analyzePriority_spec (b : MockEstimationBuilder) :
    (b.analyzePriorityImpact).base_hours =
      b.base_hours * priorityMultipliers b.task.priority ∧
    (b.analyzePriorityImpact).task = b.task ∧
    (b.analyzePriorityImpact).variance_factor = b.variance_factor := by
  simp only [MockEstimationBuilder.analyzePriorityImpact]
  split_ifs <;> exact ⟨rfl, rfl, rfl⟩

theorem applySimilar_spec (b : MockEstimationBuilder)
    (similar_tasks : List SimilarTaskData) :
    (b.applySimilarTasksInfluence similar_tasks).base_hours =
      (if similar_tasks = [] then b.base_hours
       else ((similar_tasks.map (fun t => (t.estimate : ℚ))).sum /
         similar_tasks.length) * 0.7 + b.base_hours * 0.3) ∧
    (b.applySimilarTasksInfluence similar_tasks).task = b.task ∧
    (b.applySimilarTasksInfluence similar_tasks).variance_factor =
      b.variance_factor := by
  simp only [MockEstimationBuilder.applySimilarTasksInfluence]
  by_cases h : similar_tasks = [] <;> simp [h]

/-- C3: on any task with non-blank title and description, the mock
estimator's hours are exactly the 3.0-hour base scaled by the title,
description and priority factors, blended 70/30 with the similar-task
average when one exists, times the id-seeded variance factor; and the
mock confidence is 0.75 plus `min(0.03·count, 0.15)` plus 0.05 for a
description over 50 characters, capped at 0.9. -/
theorem mock_estimation_formula (task : TaskRec)
    (similar_tasks : List SimilarTaskData) (varOfSeed : Nat → ℚ)
    (_ht : pyStrip task.title ≠ "") (hd : pyStrip task.description ≠ "") :
    mockEstimationHours task similar_tasks varOfSeed =
      (if similar_tasks = [] then
        3.0 * (if 8 < (pyWords task.title).length then 1.3
            else if (pyWords task.title).length < 3 then 0.8 else 1) *
          (if 100 < (pyWords task.description).length then 1.5
            else if (pyWords task.description).length < 20 then 0.9 else 1) *
          priorityMultipliers task.priority
       else ((similar_tasks.map (fun t => (t.estimate : ℚ))).sum /
           similar_tasks.length) * 0.7 +
         (3.0 * (if 8 < (pyWords task.title).length then 1.3
            else if (pyWords task.title).length < 3 then 0.8 else 1) *
          (if 100 < (pyWords task.description).length then 1.5
            else if (pyWords task.description).length < 20 then 0.9 else 1) *
          priorityMultipliers task.priority) * 0.3) * varOfSeed task.id ∧
    calculateMockConfidence task similar_tasks =
      min (0.75 + min ((similar_tasks.length : ℚ) * 0.03) 0.15 +
        (if 50 < task.description.length then (0.05 : ℚ) else 0)) 0.9 ∧
    priorityMultipliers "low" = 0.8 ∧ priorityMultipliers "medium" = 1.0 ∧
    priorityMultipliers "high" = 1.2 ∧ priorityMultipliers "urgent" = 1.4 := by
  have hdesc : task.description ≠ "" := by
    intro he
    exact hd (by rw [he]; rfl)
  refine ⟨?_, ?_, rfl, rfl, rfl, rfl⟩
  · have e1 := analyzeTitle_spec (MockEstimationBuilder.start task)
    have e2 := analyzeDescription_spec
      ((MockEstimationBuilder.start task).analyzeTitleComplexity)
    have e3 := analyzePriority_spec
      (((MockEstimationBuilder.start task).analyzeTitleComplexity
        ).analyzeDescriptionComplexity)
    have e4 := applySimilar_spec
      ((((MockEstimationBuilder.start task).analyzeTitleComplexity
        ).analyzeDescriptionComplexity).analyzePriorityImpact) similar_tasks
    have t1 : ((MockEstimationBuilder.start task).analyzeTitleComplexity).task
        = task := e1.2.1
    have t2 : (((MockEstimationBuilder.start task).analyzeTitleComplexity
        ).analyzeDescriptionComplexity).task = task := e2.2.1.trans t1
    have t3 : ((((MockEstimationBuilder.start task).analyzeTitleComplexity
        ).analyzeDescriptionComplexity).analyzePriorityImpact).task = task :=
      e3.2.1.trans t2
    have t4 : (((((MockEstimationBuilder.start task).analyzeTitleComplexity
        ).analyzeDescriptionComplexity).analyzePriorityImpact
        ).applySimilarTasksInfluence similar_tasks).task = task :=
      e4.2.1.trans t3
    show (((((MockEstimationBuilder.start task).analyzeTitleComplexity
        ).analyzeDescriptionComplexity).analyzePriorityImpact
        ).applySimilarTasksInfluence similar_tasks).base_hours *
      varOfSeed (((((MockEstimationBuilder.start task).analyzeTitleComplexity
        ).analyzeDescriptionComplexity).analyzePriorityImpact
        ).applySimilarTasksInfluence similar_tasks).task.id = _
    rw [t4, e4.1, e3.1, t2, e2.1, t1, e1.1, if_pos hdesc]
    have hb0 : (MockEstimationBuilder.start task).base_hours = 3.0 := rfl
    have hbt : (MockEstimationBuilder.start task).task = task := rfl
    rw [hb0, hbt]
  · unfold calculateMockConfidence
    by_cases h6 : similar_tasks = []
    · subst h6
      by_cases h7 : 50 < task.description.length <;>
        simp [hdesc, h7] <;> norm_num [min_def]
    · by_cases h7 : 50 < task.description.length <;> simp [h6, h7, hdesc]

/-- Witness for C3: a two-word "high" task with a short description, no
similar tasks and unit variance evaluates to 3.0·0.8·0.9·1.2 = 2.592
hours and confidence 0.75. -/
theorem mock_estimation_formula_witness :
    mockEstimationHours
        ⟨1, "Fix bug", "tiny", "todo", "high", none, none, none, 0, []⟩ []
        (fun _ => 1) = 2.592 ∧
    calculateMockConfidence
        ⟨1, "Fix bug", "tiny", "todo", "high", none, none, none, 0, []⟩ [] =
      0.75 := by
  have h := mock_estimation_formula
    ⟨1, "Fix bug", "tiny", "todo", "high", none, none, none, 0, []⟩ []
    (fun _ => 1) (by decide) (by decide)
  refine ⟨h.1.trans ?_, h.2.1.trans ?_⟩
  · rw [if_pos rfl]
    norm_num [show (pyWords "Fix bug").length = 2 from rfl,
      show (pyWords "tiny").length = 1 from rfl,
      show priorityMultipliers "high" = 1.2 from rfl]
  · norm_num [min_def, show ("tiny" : String).length = 4 from rfl]

/-! ## C1: idempotence of create_or_update_summary -/

instance : IsTotal TaskActivity actLE :=
  ⟨fun a b => le_total a.timestamp b.timestamp⟩

instance : IsTrans TaskActivity actLE :=
  ⟨fun _ _ _ h1 h2 => le_trans h1 h2⟩

theorem orderByTimestamp_sorted (l : List TaskActivity) :
    (orderByTimestamp l).Sorted actLE :=
  List.sorted_insertionSort actLE l

theorem mem_orderByTimestamp {a : TaskActivity} {l : List TaskActivity} :
    a ∈ orderByTimestamp l ↔ a ∈ l :=
  List.mem_insertionSort actLE

theorem mem_timestamp_le_getLast :
    ∀ {l : List TaskActivity} (h : l ≠ []), l.Sorted actLE →
      ∀ a ∈ l, a.timestamp ≤ (l.getLast h).timestamp := by
  intro l
  induction l with
  | nil => intro h; exact absurd rfl h
  | cons x t ih =>
      intro h hs a ha
      cases t with
      | nil =>
          rcases List.mem_singleton.1 ha with rfl
          exact le_refl _
      | cons y t2 =>
          rcases List.pairwise_cons.1 hs with ⟨hx, hs2⟩
          rw [List.getLast_cons (List.cons_ne_nil y t2)]
          rcases List.mem_cons.1 ha with rfl | ha2
          · exact hx _ (List.getLast_mem (List.cons_ne_nil y t2))
          · exact ih (List.cons_ne_nil y t2) hs2 a ha2

theorem getNewActivities_sorted (task : TaskRec) (ex : TaskSummary) :
    (getNewActivities task ex).Sorted actLE := by
  unfold getNewActivities
  cases ex.last_activity_processed with
  | some mark => exact orderByTimestamp_sorted _
  | none => exact orderByTimestamp_sorted _

theorem updateExistingSummary_noop {gen : SummaryProviderFn} {task : TaskRec}
    {ex : TaskSummary} (h : getNewActivities task ex = []) :
    updateExistingSummary gen task ex = (ex, 0) := by
  simp only [updateExistingSummary]
  rw [dif_pos h]

theorem updateExistingSummary_mark {gen : SummaryProviderFn} {task : TaskRec}
    {ex : TaskSummary} (h : ¬ getNewActivities task ex = []) :
    (updateExistingSummary gen task ex).1.last_activity_processed =
      some ((getNewActivities task ex).getLast h) := by
  simp only [updateExistingSummary]
  rw [dif_neg h]
  rfl

theorem getNewActivities_after (gen : SummaryProviderFn) (task : TaskRec)
    (ex : TaskSummary) :
    getNewActivities task (updateExistingSummary gen task ex).1 = [] := by
  by_cases h : getNewActivities task ex = []
  · rw [updateExistingSummary_noop h]
    exact h
  · have hmark := @updateExistingSummary_mark gen task ex h
    obtain ⟨L, hL⟩ : ∃ L, (getNewActivities task ex).getLast h = L := ⟨_, rfl⟩
    rw [hL] at hmark
    have hsortN : (getNewActivities task ex).Sorted actLE :=
      getNewActivities_sorted task ex
    have hmax : ∀ a ∈ getNewActivities task ex, a.timestamp ≤ L.timestamp := by
      intro a ha
      have := mem_timestamp_le_getLast h hsortN a ha
      rwa [hL] at this
    have hlastN : L ∈ getNewActivities task ex := by
      rw [← hL]
      exact List.getLast_mem h
    have hmemN : ∀ a ∈ task.activities, L.timestamp < a.timestamp →
        a ∈ getNewActivities task ex := by
      intro a ha hlt
      cases hm : ex.last_activity_processed with
      | none =>
          have hNeq : getNewActivities task ex = orderByTimestamp task.activities := by
            unfold getNewActivities
            rw [hm]
            rfl
          rw [hNeq]
          exact mem_orderByTimestamp.2 ha
      | some mark =>
          have hNeq : getNewActivities task ex = orderByTimestamp
              (task.activities.filter (fun x => mark.timestamp < x.timestamp)) := by
            unfold getNewActivities
            rw [hm]
          have hlastF : L ∈ task.activities.filter
              (fun x => mark.timestamp < x.timestamp) :=
            mem_orderByTimestamp.1 (hNeq ▸ hlastN)
          have hmlt : mark.timestamp < L.timestamp := by
            simpa using (List.mem_filter.1 hlastF).2
          rw [hNeq]
          refine mem_orderByTimestamp.2 (List.mem_filter.2 ⟨ha, ?_⟩)
          simpa using lt_trans hmlt hlt
    have hfilter : task.activities.filter
        (fun a => L.timestamp < a.timestamp) = [] := by
      refine List.filter_eq_nil_iff.mpr ?_
      intro a ha
      simp only [decide_eq_true_eq]
      intro hlt
      exact absurd (hmax a (hmemN a ha hlt)) (by omega)
    have hNr : getNewActivities task (updateExistingSummary gen task ex).1 =
        orderByTimestamp (task.activities.filter
          (fun a => L.timestamp < a.timestamp)) := by
      unfold getNewActivities
      rw [hmark]
    rw [hNr, hfilter]
    rfl

/-- C1: for a task whose summary already exists with a set high-water
mark and no strictly newer activity, `create_or_update_summary` returns
the stored summary unchanged (same text, mark and cost counter) with
zero provider calls; and on any task with an existing summary, a second
immediate call returns the first call's summary unchanged with zero
provider calls. -/
theorem create_or_update_summary_idempotent (gen : SummaryProviderFn)
    (task : TaskRec) (ex : TaskSummary) :
    (∀ mark, ex.last_activity_processed = some mark →
      (∀ a ∈ task.activities, ¬ mark.timestamp < a.timestamp) →
      createOrUpdateSummary gen task (some ex) = (ex, 0)) ∧
    createOrUpdateSummary gen task
        (some (createOrUpdateSummary gen task (some ex)).1) =
      ((createOrUpdateSummary gen task (some ex)).1, 0) := by
  constructor
  · intro mark hm hno
    have hnew : getNewActivities task ex = [] := by
      have hNeq : getNewActivities task ex = orderByTimestamp
          (task.activities.filter (fun a => mark.timestamp < a.timestamp)) := by
        unfold getNewActivities
        rw [hm]
      have hf : task.activities.filter (fun a => mark.timestamp < a.timestamp)
          = [] := by
        refine List.filter_eq_nil_iff.mpr ?_
        intro a ha
        simpa using hno a ha
      rw [hNeq, hf]
      rfl
    show updateExistingSummary gen task ex = (ex, 0)
    exact updateExistingSummary_noop hnew
  · have h2 : getNewActivities task
        (createOrUpdateSummary gen task (some ex)).1 = [] :=
      getNewActivities_after gen task ex
    show updateExistingSummary gen task
        (createOrUpdateSummary gen task (some ex)).1 =
      ((createOrUpdateSummary gen task (some ex)).1, 0)
    exact updateExistingSummary_noop h2

/-- Witness for C1 on a concrete task and summary: mark at the only
activity's timestamp, so the update is a no-op, and a repeated call is
also a no-op. -/
theorem create_or_update_summary_idempotent_witness :
    ((⟨7, "done", some ⟨1, 5⟩, 11, 0⟩ : TaskSummary).last_activity_processed
        = some ⟨1, 5⟩) ∧
    (∀ a ∈ (⟨7, "t", "d", "todo", "medium", none, none, none, 0,
        [⟨1, 5⟩]⟩ : TaskRec).activities,
      ¬ (⟨1, 5⟩ : TaskActivity).timestamp < a.timestamp) ∧
    createOrUpdateSummary (fun _ _ _ => ("new", 9))
        ⟨7, "t", "d", "todo", "medium", none, none, none, 0, [⟨1, 5⟩]⟩
        (some ⟨7, "done", some ⟨1, 5⟩, 11, 0⟩) =
      (⟨7, "done", some ⟨1, 5⟩, 11, 0⟩, 0) ∧
    createOrUpdateSummary (fun _ _ _ => ("new", 9))
        ⟨7, "t", "d", "todo", "medium", none, none, none, 0, [⟨1, 5⟩]⟩
        (some (createOrUpdateSummary (fun _ _ _ => ("new", 9))
          ⟨7, "t", "d", "todo", "medium", none, none, none, 0, [⟨1, 5⟩]⟩
          (some ⟨7, "done", some ⟨1, 5⟩, 11, 0⟩)).1) =
      ((createOrUpdateSummary (fun _ _ _ => ("new", 9))
          ⟨7, "t", "d", "todo", "medium", none, none, none, 0, [⟨1, 5⟩]⟩
          (some ⟨7, "done", some ⟨1, 5⟩, 11, 0⟩)).1, 0) :=
  ⟨rfl, by decide,
   (create_or_update_summary_idempotent (fun _ _ _ => ("new", 9))
      ⟨7, "t", "d", "todo", "medium", none, none, none, 0, [⟨1, 5⟩]⟩
      ⟨7, "done", some ⟨1, 5⟩, 11, 0⟩).1 ⟨1, 5⟩ rfl (by decide),
   (create_or_update_summary_idempotent (fun _ _ _ => ("new", 9))
      ⟨7, "t", "d", "todo", "medium", none, none, none, 0, [⟨1, 5⟩]⟩
      ⟨7, "done", some ⟨1, 5⟩, 11, 0⟩).2⟩

end Jira
